import Mathlib

/- Verification development for the mirrorx/tox Go binding (tox.go, callbacks.go,
   types.go, errors.go, callbacks.h).  The Go code is shallowly embedded:
   Go functions become Lean functions; C out-parameter error codes become
   explicit Nat arguments chosen by the engine (toxcore is an external black
   box, so every value it can write is quantified over); Go byte slices are
   modelled by lists of bytes (Nat); slices whose nil-ness matters are
   modelled as Option; a Go panic is modelled by an explicit abort result. -/

/- Numeric values of the toxcore C enumerations (tox/tox.h at the pinned
   revision): each enum starts at 0 and counts up in declaration order. -/

def TOX_CONNECTION_NONE : Nat := 0
def TOX_CONNECTION_TCP : Nat := 1
def TOX_CONNECTION_UDP : Nat := 2

def TOX_USER_STATUS_NONE : Nat := 0
def TOX_USER_STATUS_AWAY : Nat := 1
def TOX_USER_STATUS_BUSY : Nat := 2

def TOX_MESSAGE_TYPE_NORMAL : Nat := 0
def TOX_MESSAGE_TYPE_ACTION : Nat := 1

def TOX_PROXY_TYPE_NONE : Nat := 0
def TOX_PROXY_TYPE_HTTP : Nat := 1
def TOX_PROXY_TYPE_SOCKS5 : Nat := 2

def TOX_SAVEDATA_TYPE_NONE : Nat := 0
def TOX_SAVEDATA_TYPE_TOX_SAVE : Nat := 1

def TOX_ERR_NEW_OK : Nat := 0
def TOX_ERR_NEW_NULL : Nat := 1
def TOX_ERR_NEW_MALLOC : Nat := 2
def TOX_ERR_NEW_PORT_ALLOC : Nat := 3
def TOX_ERR_NEW_PROXY_BAD_TYPE : Nat := 4
def TOX_ERR_NEW_PROXY_BAD_HOST : Nat := 5
def TOX_ERR_NEW_PROXY_BAD_PORT : Nat := 6
def TOX_ERR_NEW_PROXY_NOT_FOUND : Nat := 7
def TOX_ERR_NEW_LOAD_ENCRYPTED : Nat := 8
def TOX_ERR_NEW_LOAD_BAD_FORMAT : Nat := 9

def TOX_ERR_SET_INFO_OK : Nat := 0
def TOX_ERR_SET_INFO_NULL : Nat := 1
def TOX_ERR_SET_INFO_TOO_LONG : Nat := 2

def TOX_ERR_FRIEND_ADD_OK : Nat := 0
def TOX_ERR_FRIEND_ADD_NULL : Nat := 1
def TOX_ERR_FRIEND_ADD_TOO_LONG : Nat := 2
def TOX_ERR_FRIEND_ADD_NO_MESSAGE : Nat := 3
def TOX_ERR_FRIEND_ADD_OWN_KEY : Nat := 4
def TOX_ERR_FRIEND_ADD_ALREADY_SENT : Nat := 5
def TOX_ERR_FRIEND_ADD_BAD_CHECKSUM : Nat := 6
def TOX_ERR_FRIEND_ADD_SET_NEW_NOSPAM : Nat := 7
def TOX_ERR_FRIEND_ADD_MALLOC : Nat := 8

def TOX_ERR_FRIEND_DELETE_OK : Nat := 0
def TOX_ERR_FRIEND_DELETE_FRIEND_NOT_FOUND : Nat := 1

def TOX_ERR_FRIEND_QUERY_OK : Nat := 0
def TOX_ERR_FRIEND_QUERY_NULL : Nat := 1
def TOX_ERR_FRIEND_QUERY_FRIEND_NOT_FOUND : Nat := 2

def TOX_ERR_FRIEND_GET_PUBLIC_KEY_OK : Nat := 0
def TOX_ERR_FRIEND_GET_PUBLIC_KEY_FRIEND_NOT_FOUND : Nat := 1

def TOX_ERR_FRIEND_BY_PUBLIC_KEY_OK : Nat := 0
def TOX_ERR_FRIEND_BY_PUBLIC_KEY_NULL : Nat := 1
def TOX_ERR_FRIEND_BY_PUBLIC_KEY_NOT_FOUND : Nat := 2

def TOX_ERR_FRIEND_GET_LAST_ONLINE_OK : Nat := 0
def TOX_ERR_FRIEND_GET_LAST_ONLINE_FRIEND_NOT_FOUND : Nat := 1

def TOX_ERR_FRIEND_SEND_MESSAGE_OK : Nat := 0
def TOX_ERR_FRIEND_SEND_MESSAGE_NULL : Nat := 1
def TOX_ERR_FRIEND_SEND_MESSAGE_FRIEND_NOT_FOUND : Nat := 2
def TOX_ERR_FRIEND_SEND_MESSAGE_FRIEND_NOT_CONNECTED : Nat := 3
def TOX_ERR_FRIEND_SEND_MESSAGE_SENDQ : Nat := 4
def TOX_ERR_FRIEND_SEND_MESSAGE_TOO_LONG : Nat := 5
def TOX_ERR_FRIEND_SEND_MESSAGE_EMPTY : Nat := 6

def TOX_ERR_FRIEND_CUSTOM_PACKET_OK : Nat := 0
def TOX_ERR_FRIEND_CUSTOM_PACKET_NULL : Nat := 1
def TOX_ERR_FRIEND_CUSTOM_PACKET_FRIEND_NOT_FOUND : Nat := 2
def TOX_ERR_FRIEND_CUSTOM_PACKET_FRIEND_NOT_CONNECTED : Nat := 3
def TOX_ERR_FRIEND_CUSTOM_PACKET_INVALID : Nat := 4
def TOX_ERR_FRIEND_CUSTOM_PACKET_EMPTY : Nat := 5
def TOX_ERR_FRIEND_CUSTOM_PACKET_TOO_LONG : Nat := 6
def TOX_ERR_FRIEND_CUSTOM_PACKET_SENDQ : Nat := 7

def TOX_ERR_BOOTSTRAP_OK : Nat := 0
def TOX_ERR_BOOTSTRAP_NULL : Nat := 1
def TOX_ERR_BOOTSTRAP_BAD_HOST : Nat := 2
def TOX_ERR_BOOTSTRAP_BAD_PORT : Nat := 3

/- types.go: `ToxPublicKeySize = C.TOX_PUBLIC_KEY_SIZE` (32 at the pinned
   revision). -/

def ToxPublicKeySize : Nat := 32

/- types.go enumerated types: each is a Go named integer type whose constants
   count up from 0 via iota.  They are embedded as Int with named constants,
   which keeps Go switch/default semantics for out-of-range values. -/

abbrev ToxConnectionStatus := Int

def ToxConnectionNone : ToxConnectionStatus := 0
def ToxConnectionTCP : ToxConnectionStatus := 1
def ToxConnectionUDP : ToxConnectionStatus := 2

abbrev ToxUserStatus := Int

def ToxUserStatusNone : ToxUserStatus := 0
def ToxUserStatusAway : ToxUserStatus := 1
def ToxUserStatusBusy : ToxUserStatus := 2

abbrev ToxMessageType := Int

def ToxMessageTypeNormal : ToxMessageType := 0
def ToxMessageTypeAction : ToxMessageType := 1

abbrev ToxProxyType := Int

def ToxProxyTypeNone : ToxProxyType := 0
def ToxProxyTypeHttp : ToxProxyType := 1
def ToxProxyTypeSocks5 : ToxProxyType := 2

/- errors.go: the package-level error values.  Each Go `errors.New` value is a
   distinct constructor. -/

inductive ToxError where
  | ToxErrNewNull
  | ToxErrNewMalloc
  | ToxErrNewPortAlloc
  | ToxErrNewProxyBadType
  | ToxErrNewProxyBadHost
  | ToxErrNewProxyBadPort
  | ToxErrNewProxyNotFound
  | ToxErrNewLoadEncrypted
  | ToxErrNewLoadBadFormat
  | ToxErrBootstrapNull
  | ToxErrBootstrapBadHost
  | ToxErrBootstrapBadPort
  | ToxErrSetInfoNull
  | ToxErrSetInfoTooLong
  | ToxErrFriendAddNull
  | ToxErrFriendAddTooLong
  | ToxErrFriendAddNoMessage
  | ToxErrFriendAddOwnKey
  | ToxErrFriendAddAlreadySent
  | ToxErrFriendAddBadChecksum
  | ToxErrFriendAddSetNewNoSpam
  | ToxErrFriendAddMalloc
  | ToxErrFriendDeleteFriendNotFound
  | ToxErrFriendByPublicKeyNull
  | ToxErrFriendByPublicKeyNotFound
  | ToxErrFriendGetPublicKeyFriendNotFound
  | ToxErrFriendGetLastOnlineFriendNotFound
  | ToxErrFriendQueryNull
  | ToxErrFriendQueryFriendNotFound
  | ToxErrFriendSendMessageNull
  | ToxErrFriendSendMessageFriendNotFound
  | ToxErrFriendSendMessageFriendNotConnected
  | ToxErrFriendSendMessageSendQ
  | ToxErrFriendSendMessageTooLong
  | ToxErrFriendSendMessageEmpty
  | ToxErrFriendCustomPacketNull
  | ToxErrFriendCustomPacketFriendNotFound
  | ToxErrFriendCustomPacketFriendNotConnected
  | ToxErrFriendCustomPacketInvalid
  | ToxErrFriendCustomPacketEmpty
  | ToxErrFriendCustomPacketTooLong
  | ToxErrFriendCustomPacketSendQ
  | ToxErrUnknown
deriving DecidableEq, Repr

/- Errors that a Go function of this package can return: either one of the
   package-level ToxErr values, or the error of hex.DecodeString inside
   Bootstrap, or a fresh errors.New value created at a call site. -/

inductive GoError where
  | toxErr : ToxError → GoError
  | hexErr : GoError
  | newErr : String → GoError
deriving DecidableEq, Repr

/- Error translation (tox.go): every operation translates the engine result
   code through a switch whose default case is ToxErrUnknown, returning no
   error exactly when the code is the OK value of the family.  Each classify
   function below is the verbatim extraction of the switch of one family. -/

/-- tox.go New (lines 146-168): the creation-family translation. -/
def classify_TOX_ERR_NEW (c_error : Nat) : Option ToxError :=
  if c_error = TOX_ERR_NEW_OK then none
  else some (
    if c_error = TOX_ERR_NEW_NULL then ToxError.ToxErrNewNull
    else if c_error = TOX_ERR_NEW_MALLOC then ToxError.ToxErrNewMalloc
    else if c_error = TOX_ERR_NEW_PORT_ALLOC then ToxError.ToxErrNewPortAlloc
    else if c_error = TOX_ERR_NEW_PROXY_BAD_TYPE then ToxError.ToxErrNewProxyBadType
    else if c_error = TOX_ERR_NEW_PROXY_BAD_HOST then ToxError.ToxErrNewProxyBadHost
    else if c_error = TOX_ERR_NEW_PROXY_BAD_PORT then ToxError.ToxErrNewProxyBadPort
    else if c_error = TOX_ERR_NEW_PROXY_NOT_FOUND then ToxError.ToxErrNewProxyNotFound
    else if c_error = TOX_ERR_NEW_LOAD_ENCRYPTED then ToxError.ToxErrNewLoadEncrypted
    else if c_error = TOX_ERR_NEW_LOAD_BAD_FORMAT then ToxError.ToxErrNewLoadBadFormat
    else ToxError.ToxErrUnknown)

/-- tox.go SetName / SetStatusMessage: the info-set family translation. -/
def classify_TOX_ERR_SET_INFO (c_error : Nat) : Option ToxError :=
  if c_error = TOX_ERR_SET_INFO_OK then none
  else some (
    if c_error = TOX_ERR_SET_INFO_NULL then ToxError.ToxErrSetInfoNull
    else if c_error = TOX_ERR_SET_INFO_TOO_LONG then ToxError.ToxErrSetInfoTooLong
    else ToxError.ToxErrUnknown)

/-- tox.go FriendAdd / FriendAddNoRequest: the friend-add family translation. -/
def classify_TOX_ERR_FRIEND_ADD (c_error : Nat) : Option ToxError :=
  if c_error = TOX_ERR_FRIEND_ADD_OK then none
  else some (
    if c_error = TOX_ERR_FRIEND_ADD_NULL then ToxError.ToxErrFriendAddNull
    else if c_error = TOX_ERR_FRIEND_ADD_TOO_LONG then ToxError.ToxErrFriendAddTooLong
    else if c_error = TOX_ERR_FRIEND_ADD_NO_MESSAGE then ToxError.ToxErrFriendAddNoMessage
    else if c_error = TOX_ERR_FRIEND_ADD_OWN_KEY then ToxError.ToxErrFriendAddOwnKey
    else if c_error = TOX_ERR_FRIEND_ADD_ALREADY_SENT then ToxError.ToxErrFriendAddAlreadySent
    else if c_error = TOX_ERR_FRIEND_ADD_BAD_CHECKSUM then ToxError.ToxErrFriendAddBadChecksum
    else if c_error = TOX_ERR_FRIEND_ADD_SET_NEW_NOSPAM then ToxError.ToxErrFriendAddSetNewNoSpam
    else if c_error = TOX_ERR_FRIEND_ADD_MALLOC then ToxError.ToxErrFriendAddMalloc
    else ToxError.ToxErrUnknown)

/-- tox.go FriendDelete: the friend-delete family translation. -/
def classify_TOX_ERR_FRIEND_DELETE (c_error : Nat) : Option ToxError :=
  if c_error = TOX_ERR_FRIEND_DELETE_OK then none
  else some (
    if c_error = TOX_ERR_FRIEND_DELETE_FRIEND_NOT_FOUND then
      ToxError.ToxErrFriendDeleteFriendNotFound
    else ToxError.ToxErrUnknown)

/-- tox.go FriendGetName / FriendGetStatus / FriendGetStatusMessage /
FriendGetConnectionStatus: the friend-query family translation. -/
def classify_TOX_ERR_FRIEND_QUERY (c_error : Nat) : Option ToxError :=
  if c_error = TOX_ERR_FRIEND_QUERY_OK then none
  else some (
    if c_error = TOX_ERR_FRIEND_QUERY_NULL then ToxError.ToxErrFriendQueryNull
    else if c_error = TOX_ERR_FRIEND_QUERY_FRIEND_NOT_FOUND then
      ToxError.ToxErrFriendQueryFriendNotFound
    else ToxError.ToxErrUnknown)

/-- tox.go FriendGetPublicKey: the friend-get-public-key family translation. -/
def classify_TOX_ERR_FRIEND_GET_PUBLIC_KEY (c_error : Nat) : Option ToxError :=
  if c_error = TOX_ERR_FRIEND_GET_PUBLIC_KEY_OK then none
  else some (
    if c_error = TOX_ERR_FRIEND_GET_PUBLIC_KEY_FRIEND_NOT_FOUND then
      ToxError.ToxErrFriendGetPublicKeyFriendNotFound
    else ToxError.ToxErrUnknown)

/-- tox.go FriendByPublicKey: the friend-by-key family translation. -/
def classify_TOX_ERR_FRIEND_BY_PUBLIC_KEY (c_error : Nat) : Option ToxError :=
  if c_error = TOX_ERR_FRIEND_BY_PUBLIC_KEY_OK then none
  else some (
    if c_error = TOX_ERR_FRIEND_BY_PUBLIC_KEY_NULL then ToxError.ToxErrFriendByPublicKeyNull
    else if c_error = TOX_ERR_FRIEND_BY_PUBLIC_KEY_NOT_FOUND then
      ToxError.ToxErrFriendByPublicKeyNotFound
    else ToxError.ToxErrUnknown)

/-- tox.go FriendGetLastOnline: the friend-last-online family translation. -/
def classify_TOX_ERR_FRIEND_GET_LAST_ONLINE (c_error : Nat) : Option ToxError :=
  if c_error = TOX_ERR_FRIEND_GET_LAST_ONLINE_OK then none
  else some (
    if c_error = TOX_ERR_FRIEND_GET_LAST_ONLINE_FRIEND_NOT_FOUND then
      ToxError.ToxErrFriendGetLastOnlineFriendNotFound
    else ToxError.ToxErrUnknown)

/-- tox.go FriendSendMessage (lines 727-743): the message-send family
translation. -/
def classify_TOX_ERR_FRIEND_SEND_MESSAGE (c_error : Nat) : Option ToxError :=
  if c_error = TOX_ERR_FRIEND_SEND_MESSAGE_OK then none
  else some (
    if c_error = TOX_ERR_FRIEND_SEND_MESSAGE_NULL then ToxError.ToxErrFriendSendMessageNull
    else if c_error = TOX_ERR_FRIEND_SEND_MESSAGE_FRIEND_NOT_FOUND then
      ToxError.ToxErrFriendSendMessageFriendNotFound
    else if c_error = TOX_ERR_FRIEND_SEND_MESSAGE_FRIEND_NOT_CONNECTED then
      ToxError.ToxErrFriendSendMessageFriendNotConnected
    else if c_error = TOX_ERR_FRIEND_SEND_MESSAGE_SENDQ then
      ToxError.ToxErrFriendSendMessageSendQ
    else if c_error = TOX_ERR_FRIEND_SEND_MESSAGE_TOO_LONG then
      ToxError.ToxErrFriendSendMessageTooLong
    else if c_error = TOX_ERR_FRIEND_SEND_MESSAGE_EMPTY then
      ToxError.ToxErrFriendSendMessageEmpty
    else ToxError.ToxErrUnknown)

/-- tox.go FriendSendLosslessPacket: the custom-packet family translation. -/
def classify_TOX_ERR_FRIEND_CUSTOM_PACKET (c_error : Nat) : Option ToxError :=
  if c_error = TOX_ERR_FRIEND_CUSTOM_PACKET_OK then none
  else some (
    if c_error = TOX_ERR_FRIEND_CUSTOM_PACKET_NULL then ToxError.ToxErrFriendCustomPacketNull
    else if c_error = TOX_ERR_FRIEND_CUSTOM_PACKET_FRIEND_NOT_FOUND then
      ToxError.ToxErrFriendCustomPacketFriendNotFound
    else if c_error = TOX_ERR_FRIEND_CUSTOM_PACKET_FRIEND_NOT_CONNECTED then
      ToxError.ToxErrFriendCustomPacketFriendNotConnected
    else if c_error = TOX_ERR_FRIEND_CUSTOM_PACKET_INVALID then
      ToxError.ToxErrFriendCustomPacketInvalid
    else if c_error = TOX_ERR_FRIEND_CUSTOM_PACKET_EMPTY then
      ToxError.ToxErrFriendCustomPacketEmpty
    else if c_error = TOX_ERR_FRIEND_CUSTOM_PACKET_TOO_LONG then
      ToxError.ToxErrFriendCustomPacketTooLong
    else if c_error = TOX_ERR_FRIEND_CUSTOM_PACKET_SENDQ then
      ToxError.ToxErrFriendCustomPacketSendQ
    else ToxError.ToxErrUnknown)

/-- tox.go Bootstrap (lines 823-834): the bootstrap family translation. -/
def classify_TOX_ERR_BOOTSTRAP (c_error : Nat) : Option ToxError :=
  if c_error = TOX_ERR_BOOTSTRAP_OK then none
  else some (
    if c_error = TOX_ERR_BOOTSTRAP_NULL then ToxError.ToxErrBootstrapNull
    else if c_error = TOX_ERR_BOOTSTRAP_BAD_HOST then ToxError.ToxErrBootstrapBadHost
    else if c_error = TOX_ERR_BOOTSTRAP_BAD_PORT then ToxError.ToxErrBootstrapBadPort
    else ToxError.ToxErrUnknown)

theorem classify_new_unknown (c : Nat) (h : 9 < c) :
    classify_TOX_ERR_NEW c = some ToxError.ToxErrUnknown := by
  simp only [classify_TOX_ERR_NEW, TOX_ERR_NEW_OK, TOX_ERR_NEW_NULL, TOX_ERR_NEW_MALLOC,
    TOX_ERR_NEW_PORT_ALLOC, TOX_ERR_NEW_PROXY_BAD_TYPE, TOX_ERR_NEW_PROXY_BAD_HOST,
    TOX_ERR_NEW_PROXY_BAD_PORT, TOX_ERR_NEW_PROXY_NOT_FOUND, TOX_ERR_NEW_LOAD_ENCRYPTED,
    TOX_ERR_NEW_LOAD_BAD_FORMAT]
  split_ifs <;> first | rfl | omega

theorem classify_set_info_unknown (c : Nat) (h : 2 < c) :
    classify_TOX_ERR_SET_INFO c = some ToxError.ToxErrUnknown := by
  simp only [classify_TOX_ERR_SET_INFO, TOX_ERR_SET_INFO_OK, TOX_ERR_SET_INFO_NULL,
    TOX_ERR_SET_INFO_TOO_LONG]
  split_ifs <;> first | rfl | omega

theorem classify_friend_add_unknown (c : Nat) (h : 8 < c) :
    classify_TOX_ERR_FRIEND_ADD c = some ToxError.ToxErrUnknown := by
  simp only [classify_TOX_ERR_FRIEND_ADD, TOX_ERR_FRIEND_ADD_OK, TOX_ERR_FRIEND_ADD_NULL,
    TOX_ERR_FRIEND_ADD_TOO_LONG, TOX_ERR_FRIEND_ADD_NO_MESSAGE, TOX_ERR_FRIEND_ADD_OWN_KEY,
    TOX_ERR_FRIEND_ADD_ALREADY_SENT, TOX_ERR_FRIEND_ADD_BAD_CHECKSUM,
    TOX_ERR_FRIEND_ADD_SET_NEW_NOSPAM, TOX_ERR_FRIEND_ADD_MALLOC]
  split_ifs <;> first | rfl | omega

theorem classify_friend_delete_unknown (c : Nat) (h : 1 < c) :
    classify_TOX_ERR_FRIEND_DELETE c = some ToxError.ToxErrUnknown := by
  simp only [classify_TOX_ERR_FRIEND_DELETE, TOX_ERR_FRIEND_DELETE_OK,
    TOX_ERR_FRIEND_DELETE_FRIEND_NOT_FOUND]
  split_ifs <;> first | rfl | omega

theorem classify_friend_query_unknown (c : Nat) (h : 2 < c) :
    classify_TOX_ERR_FRIEND_QUERY c = some ToxError.ToxErrUnknown := by
  simp only [classify_TOX_ERR_FRIEND_QUERY, TOX_ERR_FRIEND_QUERY_OK, TOX_ERR_FRIEND_QUERY_NULL,
    TOX_ERR_FRIEND_QUERY_FRIEND_NOT_FOUND]
  split_ifs <;> first | rfl | omega

theorem classify_friend_get_public_key_unknown (c : Nat) (h : 1 < c) :
    classify_TOX_ERR_FRIEND_GET_PUBLIC_KEY c = some ToxError.ToxErrUnknown := by
  simp only [classify_TOX_ERR_FRIEND_GET_PUBLIC_KEY, TOX_ERR_FRIEND_GET_PUBLIC_KEY_OK,
    TOX_ERR_FRIEND_GET_PUBLIC_KEY_FRIEND_NOT_FOUND]
  split_ifs <;> first | rfl | omega

theorem classify_friend_by_public_key_unknown (c : Nat) (h : 2 < c) :
    classify_TOX_ERR_FRIEND_BY_PUBLIC_KEY c = some ToxError.ToxErrUnknown := by
  simp only [classify_TOX_ERR_FRIEND_BY_PUBLIC_KEY, TOX_ERR_FRIEND_BY_PUBLIC_KEY_OK,
    TOX_ERR_FRIEND_BY_PUBLIC_KEY_NULL, TOX_ERR_FRIEND_BY_PUBLIC_KEY_NOT_FOUND]
  split_ifs <;> first | rfl | omega

theorem classify_friend_get_last_online_unknown (c : Nat) (h : 1 < c) :
    classify_TOX_ERR_FRIEND_GET_LAST_ONLINE c = some ToxError.ToxErrUnknown := by
  simp only [classify_TOX_ERR_FRIEND_GET_LAST_ONLINE, TOX_ERR_FRIEND_GET_LAST_ONLINE_OK,
    TOX_ERR_FRIEND_GET_LAST_ONLINE_FRIEND_NOT_FOUND]
  split_ifs <;> first | rfl | omega

theorem classify_friend_send_message_unknown (c : Nat) (h : 6 < c) :
    classify_TOX_ERR_FRIEND_SEND_MESSAGE c = some ToxError.ToxErrUnknown := by
  simp only [classify_TOX_ERR_FRIEND_SEND_MESSAGE, TOX_ERR_FRIEND_SEND_MESSAGE_OK,
    TOX_ERR_FRIEND_SEND_MESSAGE_NULL, TOX_ERR_FRIEND_SEND_MESSAGE_FRIEND_NOT_FOUND,
    TOX_ERR_FRIEND_SEND_MESSAGE_FRIEND_NOT_CONNECTED, TOX_ERR_FRIEND_SEND_MESSAGE_SENDQ,
    TOX_ERR_FRIEND_SEND_MESSAGE_TOO_LONG, TOX_ERR_FRIEND_SEND_MESSAGE_EMPTY]
  split_ifs <;> first | rfl | omega

theorem classify_friend_custom_packet_unknown (c : Nat) (h : 7 < c) :
    classify_TOX_ERR_FRIEND_CUSTOM_PACKET c = some ToxError.ToxErrUnknown := by
  simp only [classify_TOX_ERR_FRIEND_CUSTOM_PACKET, TOX_ERR_FRIEND_CUSTOM_PACKET_OK,
    TOX_ERR_FRIEND_CUSTOM_PACKET_NULL, TOX_ERR_FRIEND_CUSTOM_PACKET_FRIEND_NOT_FOUND,
    TOX_ERR_FRIEND_CUSTOM_PACKET_FRIEND_NOT_CONNECTED, TOX_ERR_FRIEND_CUSTOM_PACKET_INVALID,
    TOX_ERR_FRIEND_CUSTOM_PACKET_EMPTY, TOX_ERR_FRIEND_CUSTOM_PACKET_TOO_LONG,
    TOX_ERR_FRIEND_CUSTOM_PACKET_SENDQ]
  split_ifs <;> first | rfl | omega

theorem classify_bootstrap_unknown (c : Nat) (h : 3 < c) :
    classify_TOX_ERR_BOOTSTRAP c = some ToxError.ToxErrUnknown := by
  simp only [classify_TOX_ERR_BOOTSTRAP, TOX_ERR_BOOTSTRAP_OK, TOX_ERR_BOOTSTRAP_NULL,
    TOX_ERR_BOOTSTRAP_BAD_HOST, TOX_ERR_BOOTSTRAP_BAD_PORT]
  split_ifs <;> first | rfl | omega

/-- C2: for every operation family, a numeric engine result code outside the
family's known contiguous set of codes translates to the catch-all
ToxErrUnknown; the translation is a total Lean function, so it can neither
panic nor fail to return. -/
theorem classify_unknown_code_total (c : Nat) :
    (9 < c → classify_TOX_ERR_NEW c = some ToxError.ToxErrUnknown) ∧
    (2 < c → classify_TOX_ERR_SET_INFO c = some ToxError.ToxErrUnknown) ∧
    (8 < c → classify_TOX_ERR_FRIEND_ADD c = some ToxError.ToxErrUnknown) ∧
    (1 < c → classify_TOX_ERR_FRIEND_DELETE c = some ToxError.ToxErrUnknown) ∧
    (2 < c → classify_TOX_ERR_FRIEND_QUERY c = some ToxError.ToxErrUnknown) ∧
    (1 < c → classify_TOX_ERR_FRIEND_GET_PUBLIC_KEY c = some ToxError.ToxErrUnknown) ∧
    (2 < c → classify_TOX_ERR_FRIEND_BY_PUBLIC_KEY c = some ToxError.ToxErrUnknown) ∧
    (1 < c → classify_TOX_ERR_FRIEND_GET_LAST_ONLINE c = some ToxError.ToxErrUnknown) ∧
    (6 < c → classify_TOX_ERR_FRIEND_SEND_MESSAGE c = some ToxError.ToxErrUnknown) ∧
    (7 < c → classify_TOX_ERR_FRIEND_CUSTOM_PACKET c = some ToxError.ToxErrUnknown) ∧
    (3 < c → classify_TOX_ERR_BOOTSTRAP c = some ToxError.ToxErrUnknown) :=
  ⟨classify_new_unknown c, classify_set_info_unknown c, classify_friend_add_unknown c,
    classify_friend_delete_unknown c, classify_friend_query_unknown c,
    classify_friend_get_public_key_unknown c, classify_friend_by_public_key_unknown c,
    classify_friend_get_last_online_unknown c, classify_friend_send_message_unknown c,
    classify_friend_custom_packet_unknown c, classify_bootstrap_unknown c⟩

/-- C2 witness: the code 100 is outside every family's known set and every
family translates it to ToxErrUnknown. -/
theorem classify_unknown_code_total_witness :
    classify_TOX_ERR_NEW 100 = some ToxError.ToxErrUnknown ∧
    classify_TOX_ERR_SET_INFO 100 = some ToxError.ToxErrUnknown ∧
    classify_TOX_ERR_FRIEND_ADD 100 = some ToxError.ToxErrUnknown ∧
    classify_TOX_ERR_FRIEND_DELETE 100 = some ToxError.ToxErrUnknown ∧
    classify_TOX_ERR_FRIEND_QUERY 100 = some ToxError.ToxErrUnknown ∧
    classify_TOX_ERR_FRIEND_GET_PUBLIC_KEY 100 = some ToxError.ToxErrUnknown ∧
    classify_TOX_ERR_FRIEND_BY_PUBLIC_KEY 100 = some ToxError.ToxErrUnknown ∧
    classify_TOX_ERR_FRIEND_GET_LAST_ONLINE 100 = some ToxError.ToxErrUnknown ∧
    classify_TOX_ERR_FRIEND_SEND_MESSAGE 100 = some ToxError.ToxErrUnknown ∧
    classify_TOX_ERR_FRIEND_CUSTOM_PACKET 100 = some ToxError.ToxErrUnknown ∧
    classify_TOX_ERR_BOOTSTRAP 100 = some ToxError.ToxErrUnknown := by
  have h := classify_unknown_code_total 100
  exact ⟨h.1 (by decide), h.2.1 (by decide), h.2.2.1 (by decide), h.2.2.2.1 (by decide),
    h.2.2.2.2.1 (by decide), h.2.2.2.2.2.1 (by decide), h.2.2.2.2.2.2.1 (by decide),
    h.2.2.2.2.2.2.2.1 (by decide), h.2.2.2.2.2.2.2.2.1 (by decide),
    h.2.2.2.2.2.2.2.2.2.1 (by decide), h.2.2.2.2.2.2.2.2.2.2 (by decide)⟩

/- callbacks.go: each trampoline decodes the enumerated argument supplied by
   the engine through a switch before invoking the registered Go handler.  The
   default arm of each switch is a Go panic; it is modelled by the abort
   result, while the ok result carries the decoded Go value that the
   trampoline passes on to the caller-supplied handler. -/

inductive DecodeResult (A : Type) where
  | ok : A → DecodeResult A
  | abort : String → DecodeResult A
deriving DecidableEq, Repr

/-- callbacks.go lines 27-45: the enum decode of callback_self_connection_status. -/
def callback_self_connection_status (c_connection_status : Nat) :
    DecodeResult ToxConnectionStatus :=
  if c_connection_status = TOX_CONNECTION_NONE then DecodeResult.ok ToxConnectionNone
  else if c_connection_status = TOX_CONNECTION_TCP then DecodeResult.ok ToxConnectionTCP
  else if c_connection_status = TOX_CONNECTION_UDP then DecodeResult.ok ToxConnectionUDP
  else DecodeResult.abort "unknown connection status"

/-- callbacks.go lines 116-136: the enum decode of callback_friend_status. -/
def callback_friend_status (c_user_status : Nat) : DecodeResult ToxUserStatus :=
  if c_user_status = TOX_USER_STATUS_NONE then DecodeResult.ok ToxUserStatusNone
  else if c_user_status = TOX_USER_STATUS_AWAY then DecodeResult.ok ToxUserStatusAway
  else if c_user_status = TOX_USER_STATUS_BUSY then DecodeResult.ok ToxUserStatusBusy
  else DecodeResult.abort "unknown user status"

/-- callbacks.go lines 139-159: the enum decode of callback_friend_connection_status. -/
def callback_friend_connection_status (c_connection_status : Nat) :
    DecodeResult ToxConnectionStatus :=
  if c_connection_status = TOX_CONNECTION_NONE then DecodeResult.ok ToxConnectionNone
  else if c_connection_status = TOX_CONNECTION_TCP then DecodeResult.ok ToxConnectionTCP
  else if c_connection_status = TOX_CONNECTION_UDP then DecodeResult.ok ToxConnectionUDP
  else DecodeResult.abort "unknown connection status"

/-- callbacks.go lines 162-190: the enum decode of callback_friend_message. -/
def callback_friend_message (c_message_type : Nat) : DecodeResult ToxMessageType :=
  if c_message_type = TOX_MESSAGE_TYPE_NORMAL then DecodeResult.ok ToxMessageTypeNormal
  else if c_message_type = TOX_MESSAGE_TYPE_ACTION then DecodeResult.ok ToxMessageTypeAction
  else DecodeResult.abort "unknown message type"

/-- C1 counterexample: the connection-status trampoline, given the engine enum
value 3 (outside the recognized set 0, 1, 2), panics instead of producing a
fallback value or a reported decode error. -/
theorem callback_self_connection_status_panics_on_3 :
    (3 ≠ TOX_CONNECTION_NONE ∧ 3 ≠ TOX_CONNECTION_TCP ∧ 3 ≠ TOX_CONNECTION_UDP) ∧
    callback_self_connection_status 3 = DecodeResult.abort "unknown connection status" :=
  ⟨by decide, rfl⟩

/-- C1 amended: in every callback trampoline that decodes an enumerated field,
an enum value outside the recognized set causes a Go panic (an unhandled abort
of the process), not a fallback value or a reported decode error. -/
theorem callback_unknown_enum_aborts (c : Nat) :
    (c ≠ TOX_CONNECTION_NONE → c ≠ TOX_CONNECTION_TCP → c ≠ TOX_CONNECTION_UDP →
      callback_self_connection_status c = DecodeResult.abort "unknown connection status" ∧
      callback_friend_connection_status c = DecodeResult.abort "unknown connection status") ∧
    (c ≠ TOX_USER_STATUS_NONE → c ≠ TOX_USER_STATUS_AWAY → c ≠ TOX_USER_STATUS_BUSY →
      callback_friend_status c = DecodeResult.abort "unknown user status") ∧
    (c ≠ TOX_MESSAGE_TYPE_NORMAL → c ≠ TOX_MESSAGE_TYPE_ACTION →
      callback_friend_message c = DecodeResult.abort "unknown message type") := by
  refine ⟨fun h0 h1 h2 => ⟨?_, ?_⟩, fun h0 h1 h2 => ?_, fun h0 h1 => ?_⟩ <;>
    simp only [callback_self_connection_status, callback_friend_connection_status,
      callback_friend_status, callback_friend_message, TOX_CONNECTION_NONE,
      TOX_CONNECTION_TCP, TOX_CONNECTION_UDP, TOX_USER_STATUS_NONE, TOX_USER_STATUS_AWAY,
      TOX_USER_STATUS_BUSY, TOX_MESSAGE_TYPE_NORMAL, TOX_MESSAGE_TYPE_ACTION] at * <;>
    split_ifs <;> first | rfl | omega

/-- C1 amended witness: the enum value 7 is outside every recognized set and
makes all four decoding trampolines panic. -/
theorem callback_unknown_enum_aborts_witness :
    callback_self_connection_status 7 = DecodeResult.abort "unknown connection status" ∧
    callback_friend_connection_status 7 = DecodeResult.abort "unknown connection status" ∧
    callback_friend_status 7 = DecodeResult.abort "unknown user status" ∧
    callback_friend_message 7 = DecodeResult.abort "unknown message type" := by
  have h := callback_unknown_enum_aborts 7
  exact ⟨(h.1 (by decide) (by decide) (by decide)).1, (h.1 (by decide) (by decide) (by decide)).2,
    h.2.1 (by decide) (by decide) (by decide), h.2.2 (by decide) (by decide)⟩

/- tox.go utilities (lines 29-50): slice2array mallocs a fresh C array holding
   a copy of the bytes of a Go slice; array2slice copies `size` bytes out of a
   C array into a fresh Go slice.  Heap arrays are modelled by the list of
   bytes they hold, so the malloc-and-copy is the identity on contents and the
   sized read is a take. -/

def slice2array (slice : List Nat) : List Nat := slice

def array2slice (array : List Nat) (size : Nat) : List Nat := List.take size array

/- cgo string conversions: C.CString copies the bytes of a Go string into a
   fresh NUL-terminated C array; C.GoString reads a C array up to the first
   NUL byte. -/

def CString (s : List Nat) : List Nat := s ++ [0]

def GoString : List Nat → List Nat
  | [] => []
  | b :: rest => if b = 0 then [] else b :: GoString rest

theorem GoString_CString (s : List Nat) (h : ∀ b ∈ s, b ≠ 0) : GoString (CString s) = s := by
  induction s with
  | nil => rfl
  | cons a t ih =>
    have ha : a ≠ 0 := h a (List.mem_cons_self a t)
    have ht : ∀ b ∈ t, b ≠ 0 := fun b hb => h b (List.mem_cons_of_mem a hb)
    simp only [CString, List.cons_append, GoString, if_neg ha]
    exact congrArg (a :: ·) (ih ht)

/- types.go: the ToxOptions struct.  Go strings and byte slices are modelled
   by their byte contents. -/

structure ToxOptions where
  IPv6Enabled : Bool
  UDPEnabled : Bool
  ProxyType : ToxProxyType
  ProxyHost : List Nat
  ProxyPort : Nat
  StartPort : Nat
  EndPort : Nat
  TCPPort : Nat
  SaveData : List Nat
deriving DecidableEq, Repr

/- The C struct Tox_Options (tox/tox.h): proxy_host is a NUL-terminated heap
   string, savedata_data a heap byte array of savedata_length bytes. -/

structure Tox_Options where
  ipv6_enabled : Bool
  udp_enabled : Bool
  proxy_type : Nat
  proxy_host : List Nat
  proxy_port : Nat
  start_port : Nat
  end_port : Nat
  tcp_port : Nat
  savedata_type : Nat
  savedata_data : List Nat
  savedata_length : Nat
deriving DecidableEq, Repr, Inhabited

/-- tox.go COptions lines 90-99: the proxy-type switch, returning none on the
default arm (Go: `return nil, errors.New("unknown proxy type")`). -/
def COptionsProxyType (proxyType : ToxProxyType) : Option Nat :=
  if proxyType = ToxProxyTypeNone then some TOX_PROXY_TYPE_NONE
  else if proxyType = ToxProxyTypeHttp then some TOX_PROXY_TYPE_HTTP
  else if proxyType = ToxProxyTypeSocks5 then some TOX_PROXY_TYPE_SOCKS5
  else none

/-- tox.go GoOptions lines 61-70: the inverse proxy-type switch. -/
def GoOptionsProxyType (c_proxy_type : Nat) : Option ToxProxyType :=
  if c_proxy_type = TOX_PROXY_TYPE_NONE then some ToxProxyTypeNone
  else if c_proxy_type = TOX_PROXY_TYPE_HTTP then some ToxProxyTypeHttp
  else if c_proxy_type = TOX_PROXY_TYPE_SOCKS5 then some ToxProxyTypeSocks5
  else none

/-- tox.go COptions (lines 86-114): convert startup options from Go to C.
Returns none exactly when the proxy type is unrecognized. -/
def COptions (options : ToxOptions) : Option Tox_Options :=
  match COptionsProxyType options.ProxyType with
  | none => none
  | some pt =>
    let length := options.SaveData.length
    some {
      ipv6_enabled := options.IPv6Enabled
      udp_enabled := options.UDPEnabled
      proxy_type := pt
      proxy_host := CString options.ProxyHost
      proxy_port := options.ProxyPort
      start_port := options.StartPort
      end_port := options.EndPort
      tcp_port := options.TCPPort
      savedata_type :=
        if length = 0 then TOX_SAVEDATA_TYPE_NONE else TOX_SAVEDATA_TYPE_TOX_SAVE
      savedata_data := slice2array options.SaveData
      savedata_length := length
    }

/-- tox.go GoOptions (lines 57-81): convert startup options from C to Go.
Returns none exactly when the proxy type is unrecognized. -/
def GoOptions (c_options : Tox_Options) : Option ToxOptions :=
  match GoOptionsProxyType c_options.proxy_type with
  | none => none
  | some pt =>
    some {
      IPv6Enabled := c_options.ipv6_enabled
      UDPEnabled := c_options.udp_enabled
      ProxyType := pt
      ProxyHost := GoString c_options.proxy_host
      ProxyPort := c_options.proxy_port
      StartPort := c_options.start_port
      EndPort := c_options.end_port
      TCPPort := c_options.tcp_port
      SaveData := array2slice c_options.savedata_data c_options.savedata_length
    }

/-- A configuration is valid when its proxy type is one of the three declared
values and its proxy host is a representable C string, that is, contains no
NUL byte (per types.go it must be a DNS name of at most 255 characters). -/
def ToxOptions.valid (options : ToxOptions) : Prop :=
  (options.ProxyType = ToxProxyTypeNone ∨ options.ProxyType = ToxProxyTypeHttp ∨
    options.ProxyType = ToxProxyTypeSocks5) ∧ ∀ b ∈ options.ProxyHost, b ≠ 0

theorem COptionsProxyType_GoOptionsProxyType (proxyType : ToxProxyType) (pt : Nat)
    (h : COptionsProxyType proxyType = some pt) : GoOptionsProxyType pt = some proxyType := by
  simp only [COptionsProxyType] at h
  split_ifs at h with h1 h2 h3 <;> injection h with h <;> subst h <;>
    first
      | rw [h1]; rfl
      | rw [h2]; rfl
      | rw [h3]; rfl

/-- C3: for every valid configuration, converting it to the engine
representation and back (GoOptions after COptions) reproduces every field
exactly: the enablement flags, proxy type, proxy host, proxy port,
start/end/TCP ports and the save-data bytes. -/
theorem GoOptions_COptions_round_trip (options : ToxOptions) (h : options.valid) :
    ∃ c_options, COptions options = some c_options ∧ GoOptions c_options = some options := by
  obtain ⟨hpt, hhost⟩ := h
  obtain ⟨pt, hcpt⟩ : ∃ pt, COptionsProxyType options.ProxyType = some pt := by
    rcases hpt with h | h | h <;> rw [h] <;> exact ⟨_, rfl⟩
  have hback := COptionsProxyType_GoOptionsProxyType options.ProxyType pt hcpt
  refine ⟨_, by rw [COptions, hcpt], ?_⟩
  rw [GoOptions]
  simp only [hback, GoString_CString options.ProxyHost hhost, array2slice, slice2array,
    List.take_length]

def roundTripExample : ToxOptions where
  IPv6Enabled := true
  UDPEnabled := false
  ProxyType := ToxProxyTypeHttp
  ProxyHost := [112, 120]
  ProxyPort := 8080
  StartPort := 33445
  EndPort := 33545
  TCPPort := 0
  SaveData := [1, 2, 3]

def roundTripExampleC : Tox_Options where
  ipv6_enabled := true
  udp_enabled := false
  proxy_type := TOX_PROXY_TYPE_HTTP
  proxy_host := [112, 120, 0]
  proxy_port := 8080
  start_port := 33445
  end_port := 33545
  tcp_port := 0
  savedata_type := TOX_SAVEDATA_TYPE_TOX_SAVE
  savedata_data := [1, 2, 3]
  savedata_length := 3

/-- C3 witness: a concrete valid configuration with an HTTP proxy and
non-empty save data round-trips exactly. -/
theorem GoOptions_COptions_round_trip_witness :
    COptions roundTripExample = some roundTripExampleC ∧
    GoOptions roundTripExampleC = some roundTripExample := by
  obtain ⟨c, hc, hg⟩ := GoOptions_COptions_round_trip roundTripExample
    ⟨Or.inr (Or.inl rfl), by decide⟩
  have hce : c = roundTripExampleC := by
    have h2 : some c = some roundTripExampleC := hc.symm.trans (by decide)
    injection h2
  rw [hce] at hc hg
  exact ⟨hc, hg⟩

/-- C4: COptions tags empty save data with TOX_SAVEDATA_TYPE_NONE and
non-empty save data with TOX_SAVEDATA_TYPE_TOX_SAVE, recording the exact
length. -/
theorem COptions_savedata_tag (options : ToxOptions) (c_options : Tox_Options)
    (h : COptions options = some c_options) :
    (options.SaveData.length = 0 → c_options.savedata_type = TOX_SAVEDATA_TYPE_NONE) ∧
    (options.SaveData.length ≠ 0 → c_options.savedata_type = TOX_SAVEDATA_TYPE_TOX_SAVE) ∧
    c_options.savedata_length = options.SaveData.length := by
  rcases heq : COptionsProxyType options.ProxyType with _ | pt <;>
    rw [COptions, heq] at h
  · exact Option.noConfusion h
  · injection h with h
    subst h
    refine ⟨fun hz => ?_, fun hnz => ?_, rfl⟩
    · simp only [if_pos hz]
    · simp only [if_neg hnz]

def savedataExampleEmpty : ToxOptions where
  IPv6Enabled := false
  UDPEnabled := true
  ProxyType := ToxProxyTypeNone
  ProxyHost := []
  ProxyPort := 0
  StartPort := 0
  EndPort := 0
  TCPPort := 0
  SaveData := []

def savedataExampleFull : ToxOptions where
  IPv6Enabled := false
  UDPEnabled := true
  ProxyType := ToxProxyTypeNone
  ProxyHost := []
  ProxyPort := 0
  StartPort := 0
  EndPort := 0
  TCPPort := 0
  SaveData := [9, 8, 7]

/-- C4 witness: with empty save data the tag is TOX_SAVEDATA_TYPE_NONE; with
three bytes of save data the tag is TOX_SAVEDATA_TYPE_TOX_SAVE and the
recorded length is 3. -/
theorem COptions_savedata_tag_witness :
    ((COptions savedataExampleEmpty).getD default).savedata_type = TOX_SAVEDATA_TYPE_NONE ∧
    ((COptions savedataExampleFull).getD default).savedata_type = TOX_SAVEDATA_TYPE_TOX_SAVE ∧
    ((COptions savedataExampleFull).getD default).savedata_length = 3 := by
  have h1 := COptions_savedata_tag savedataExampleEmpty
    ((COptions savedataExampleEmpty).getD default) (by decide)
  have h2 := COptions_savedata_tag savedataExampleFull
    ((COptions savedataExampleFull).getD default) (by decide)
  exact ⟨h1.1 (by decide), h2.2.1 (by decide), h2.2.2.trans (by decide)⟩

/-- tox.go FreeOptions (lines 117-120): free the two heap allocations of a
translated options struct.  The result is the list of heap blocks released:
the proxy-host C string and the save-data array, and nothing else. -/
def FreeOptions (c_options : Tox_Options) : List (List Nat) :=
  [c_options.proxy_host, c_options.savedata_data]

/- tox.go New (lines 135-176).  The engine call tox_new is a black box: its
   returned handle and its out-parameter error code are inputs of the model.
   The `defer c_options.FreeOptions()` registered right after a successful
   translation runs on every exit path reached afterwards; the freed field
   records the heap blocks it released, none when FreeOptions never ran. -/

structure NewResult where
  tox : Option Nat
  throw : Option GoError
  freed : Option (List (List Nat))
deriving DecidableEq, Repr

def New (options : Option ToxOptions) (c_tox : Nat) (c_error : Nat) : NewResult :=
  match options with
  | some o =>
    match COptions o with
    | none =>
      { tox := none, throw := some (GoError.newErr "unknown proxy type"), freed := none }
    | some c_options =>
      match classify_TOX_ERR_NEW c_error with
      | some e =>
        { tox := none, throw := some (GoError.toxErr e),
          freed := some (FreeOptions c_options) }
      | none =>
        { tox := some c_tox, throw := none, freed := some (FreeOptions c_options) }
  | none =>
    match classify_TOX_ERR_NEW c_error with
    | some e => { tox := none, throw := some (GoError.toxErr e), freed := none }
    | none => { tox := some c_tox, throw := none, freed := none }

/-- C5: whenever the configuration translation succeeds, New invokes
FreeOptions on the translated engine configuration on every exit path — for
every engine error code, including every failing one — and FreeOptions
releases exactly the proxy-host and save-data allocations. -/
theorem New_always_frees_translated_options (o : ToxOptions) (c_options : Tox_Options)
    (c_tox c_error : Nat) (h : COptions o = some c_options) :
    (New (some o) c_tox c_error).freed = some (FreeOptions c_options) ∧
    FreeOptions c_options = [c_options.proxy_host, c_options.savedata_data] := by
  refine ⟨?_, rfl⟩
  simp only [New, h]
  cases classify_TOX_ERR_NEW c_error <;> rfl

/-- C5 witness: with a concrete valid configuration and the failing engine
code TOX_ERR_NEW_PORT_ALLOC, New still frees the proxy-host and save-data
allocations of the translated configuration. -/
theorem New_always_frees_translated_options_witness :
    (New (some roundTripExample) 0 TOX_ERR_NEW_PORT_ALLOC).freed =
      some (FreeOptions roundTripExampleC) ∧
    FreeOptions roundTripExampleC =
      [roundTripExampleC.proxy_host, roundTripExampleC.savedata_data] :=
  New_always_frees_translated_options roundTripExample roundTripExampleC 0
    TOX_ERR_NEW_PORT_ALLOC (by decide)

/- The engine-side state behind the self queries: toxcore specifies that
   tox_get_savedata_size reports exactly the number of bytes tox_get_savedata
   writes, and likewise for the name and the status-message pairs, so the
   engine state is modelled by the stored byte sequences themselves. -/

structure EngineSelfState where
  savedata : List Nat
  name : List Nat
  status_message : List Nat
deriving DecidableEq, Repr

def tox_get_savedata_size (e : EngineSelfState) : Nat := e.savedata.length

def tox_get_savedata (e : EngineSelfState) : List Nat := e.savedata

def tox_self_get_name_size (e : EngineSelfState) : Nat := e.name.length

def tox_self_get_name (e : EngineSelfState) : List Nat := e.name

def tox_self_get_status_message_size (e : EngineSelfState) : Nat := e.status_message.length

def tox_self_get_status_message (e : EngineSelfState) : List Nat := e.status_message

/-- tox.go Serialize (lines 179-186): `data = make([]byte, c_length)` is a
present (non-nil) zero-filled buffer — modelled by some — and the engine
fills it only when the size is positive. -/
def Serialize (e : EngineSelfState) : Option (List Nat) :=
  if 0 < tox_get_savedata_size e then some (tox_get_savedata e)
  else some (List.replicate (tox_get_savedata_size e) 0)

/-- tox.go GetName (lines 305-314): same size-then-fetch shape; the engine is
handed a nil buffer pointer when the size is zero and then writes nothing. -/
def GetName (e : EngineSelfState) : Option (List Nat) :=
  if 0 < tox_self_get_name_size e then some (tox_self_get_name e)
  else some (List.replicate (tox_self_get_name_size e) 0)

/-- tox.go GetStatusMessage (lines 367-376): same size-then-fetch shape. -/
def GetStatusMessage (e : EngineSelfState) : Option (List Nat) :=
  if 0 < tox_self_get_status_message_size e then some (tox_self_get_status_message e)
  else some (List.replicate (tox_self_get_status_message_size e) 0)

/-- C6: each two-step size-then-fetch query returns a present (non-nil)
buffer whose length is exactly the size the engine reported, and a reported
size of zero yields a present empty byte sequence, never an error or nil. -/
theorem size_then_fetch_exact (e : EngineSelfState) :
    (∃ data, Serialize e = some data ∧ data.length = tox_get_savedata_size e) ∧
    (tox_get_savedata_size e = 0 → Serialize e = some []) ∧
    (∃ name, GetName e = some name ∧ name.length = tox_self_get_name_size e) ∧
    (tox_self_get_name_size e = 0 → GetName e = some []) ∧
    (∃ message, GetStatusMessage e = some message ∧
      message.length = tox_self_get_status_message_size e) ∧
    (tox_self_get_status_message_size e = 0 → GetStatusMessage e = some []) := by
  refine ⟨?_, fun h => ?_, ?_, fun h => ?_, ?_, fun h => ?_⟩
  · rw [Serialize]
    split_ifs with h
    · exact ⟨_, rfl, rfl⟩
    · exact ⟨_, rfl, List.length_replicate _ _⟩
  · rw [Serialize, h]
    rfl
  · rw [GetName]
    split_ifs with h
    · exact ⟨_, rfl, rfl⟩
    · exact ⟨_, rfl, List.length_replicate _ _⟩
  · rw [GetName, h]
    rfl
  · rw [GetStatusMessage]
    split_ifs with h
    · exact ⟨_, rfl, rfl⟩
    · exact ⟨_, rfl, List.length_replicate _ _⟩
  · rw [GetStatusMessage, h]
    rfl

/-- C6 witness: on an engine state whose stored byte sequences are all empty,
every size query reports zero and every query returns a present empty
sequence. -/
theorem size_then_fetch_exact_witness :
    Serialize { savedata := [], name := [], status_message := [] } = some [] ∧
    GetName { savedata := [], name := [], status_message := [] } = some [] ∧
    GetStatusMessage { savedata := [], name := [], status_message := [] } = some [] := by
  have h := size_then_fetch_exact { savedata := [], name := [], status_message := [] }
  exact ⟨h.2.1 rfl, h.2.2.2.1 rfl, h.2.2.2.2.2 rfl⟩

/- types.go lines 26-40: the Tox struct holds the engine handle and one
   nil-able handler field per event kind.  The handler function types are
   opaque to this layer, so they become type parameters; a nil Go function
   field is none.  Each SetOn* registration (tox.go lines 218-270) stores the
   handler in its field and calls the register_* helper of callbacks.h, which
   stores the fixed per-kind trampoline into the engine handle's single
   callback pointer for that kind; storing the same trampoline again leaves
   the pointer unchanged, so each engine-side pointer is a Bool field. -/

structure Tox (H1 H2 H3 H4 H5 H6 H7 H8 : Type) where
  handle : Nat
  onSelfConnectionStatus : Option H1
  onFriendRequest : Option H2
  onFriendName : Option H3
  onFriendStatus : Option H4
  onFriendStatusMessage : Option H5
  onFriendConnectionStatus : Option H6
  onFriendMessage : Option H7
  onFriendLosslessPacket : Option H8
  trampoline_self_connection_status : Bool
  trampoline_friend_request : Bool
  trampoline_friend_name : Bool
  trampoline_friend_status : Bool
  trampoline_friend_status_message : Bool
  trampoline_friend_connection_status : Bool
  trampoline_friend_message : Bool
  trampoline_friend_lossless_packet : Bool

section

variable {H1 H2 H3 H4 H5 H6 H7 H8 : Type}

/-- tox.go lines 218-221. -/
def SetOnSelfConnectionStatus (tox : Tox H1 H2 H3 H4 H5 H6 H7 H8) (callback : H1) :
    Tox H1 H2 H3 H4 H5 H6 H7 H8 :=
  { tox with onSelfConnectionStatus := some callback,
             trampoline_self_connection_status := true }

/-- tox.go lines 225-228. -/
def SetOnFriendRequest (tox : Tox H1 H2 H3 H4 H5 H6 H7 H8) (callback : H2) :
    Tox H1 H2 H3 H4 H5 H6 H7 H8 :=
  { tox with onFriendRequest := some callback, trampoline_friend_request := true }

/-- tox.go lines 232-235. -/
def SetOnFriendName (tox : Tox H1 H2 H3 H4 H5 H6 H7 H8) (callback : H3) :
    Tox H1 H2 H3 H4 H5 H6 H7 H8 :=
  { tox with onFriendName := some callback, trampoline_friend_name := true }

/-- tox.go lines 239-242. -/
def SetOnFriendStatus (tox : Tox H1 H2 H3 H4 H5 H6 H7 H8) (callback : H4) :
    Tox H1 H2 H3 H4 H5 H6 H7 H8 :=
  { tox with onFriendStatus := some callback, trampoline_friend_status := true }

/-- tox.go lines 246-249. -/
def SetOnFriendStatusMessage (tox : Tox H1 H2 H3 H4 H5 H6 H7 H8) (callback : H5) :
    Tox H1 H2 H3 H4 H5 H6 H7 H8 :=
  { tox with onFriendStatusMessage := some callback,
             trampoline_friend_status_message := true }

/-- tox.go lines 253-256. -/
def SetOnFriendConnectionStatus (tox : Tox H1 H2 H3 H4 H5 H6 H7 H8) (callback : H6) :
    Tox H1 H2 H3 H4 H5 H6 H7 H8 :=
  { tox with onFriendConnectionStatus := some callback,
             trampoline_friend_connection_status := true }

/-- tox.go lines 260-263. -/
def SetOnFriendMessage (tox : Tox H1 H2 H3 H4 H5 H6 H7 H8) (callback : H7) :
    Tox H1 H2 H3 H4 H5 H6 H7 H8 :=
  { tox with onFriendMessage := some callback, trampoline_friend_message := true }

/-- tox.go lines 267-270. -/
def SetOnFriendLosslessPacket (tox : Tox H1 H2 H3 H4 H5 H6 H7 H8) (callback : H8) :
    Tox H1 H2 H3 H4 H5 H6 H7 H8 :=
  { tox with onFriendLosslessPacket := some callback,
             trampoline_friend_lossless_packet := true }

/-- C7: each event kind has a single handler slot on the instance; for every
kind, registering a second handler produces exactly the state obtained by
registering only the second one — the old handler is replaced, never composed
with or retained — and the slot then holds exactly the new handler. -/
theorem set_handler_replaces (tox : Tox H1 H2 H3 H4 H5 H6 H7 H8)
    (f1 g1 : H1) (f2 g2 : H2) (f3 g3 : H3) (f4 g4 : H4) (f5 g5 : H5) (f6 g6 : H6)
    (f7 g7 : H7) (f8 g8 : H8) :
    (SetOnSelfConnectionStatus (SetOnSelfConnectionStatus tox f1) g1 =
        SetOnSelfConnectionStatus tox g1 ∧
      (SetOnSelfConnectionStatus tox g1).onSelfConnectionStatus = some g1) ∧
    (SetOnFriendRequest (SetOnFriendRequest tox f2) g2 = SetOnFriendRequest tox g2 ∧
      (SetOnFriendRequest tox g2).onFriendRequest = some g2) ∧
    (SetOnFriendName (SetOnFriendName tox f3) g3 = SetOnFriendName tox g3 ∧
      (SetOnFriendName tox g3).onFriendName = some g3) ∧
    (SetOnFriendStatus (SetOnFriendStatus tox f4) g4 = SetOnFriendStatus tox g4 ∧
      (SetOnFriendStatus tox g4).onFriendStatus = some g4) ∧
    (SetOnFriendStatusMessage (SetOnFriendStatusMessage tox f5) g5 =
        SetOnFriendStatusMessage tox g5 ∧
      (SetOnFriendStatusMessage tox g5).onFriendStatusMessage = some g5) ∧
    (SetOnFriendConnectionStatus (SetOnFriendConnectionStatus tox f6) g6 =
        SetOnFriendConnectionStatus tox g6 ∧
      (SetOnFriendConnectionStatus tox g6).onFriendConnectionStatus = some g6) ∧
    (SetOnFriendMessage (SetOnFriendMessage tox f7) g7 = SetOnFriendMessage tox g7 ∧
      (SetOnFriendMessage tox g7).onFriendMessage = some g7) ∧
    (SetOnFriendLosslessPacket (SetOnFriendLosslessPacket tox f8) g8 =
        SetOnFriendLosslessPacket tox g8 ∧
      (SetOnFriendLosslessPacket tox g8).onFriendLosslessPacket = some g8) :=
  ⟨⟨rfl, rfl⟩, ⟨rfl, rfl⟩, ⟨rfl, rfl⟩, ⟨rfl, rfl⟩, ⟨rfl, rfl⟩, ⟨rfl, rfl⟩, ⟨rfl, rfl⟩,
    ⟨rfl, rfl⟩⟩

end

/- encoding/hex DecodeString, as used by Bootstrap: decodes two hex digits
   per byte; an odd-length input or a non-hex character is an error (none). -/

def fromHexChar (c : Char) : Option Nat :=
  if ('0' ≤ c ∧ c ≤ '9') then some (c.toNat - Char.toNat '0')
  else if ('a' ≤ c ∧ c ≤ 'f') then some (c.toNat - Char.toNat 'a' + 10)
  else if ('A' ≤ c ∧ c ≤ 'F') then some (c.toNat - Char.toNat 'A' + 10)
  else none

def hexDecodeString : List Char → Option (List Nat)
  | [] => some []
  | [_] => none
  | c1 :: c2 :: rest =>
    match fromHexChar c1, fromHexChar c2, hexDecodeString rest with
    | some hi, some lo, some bs => some ((16 * hi + lo) :: bs)
    | _, _, _ => none

/- types.go lines 98-104: a seed node is a host, a port, and a hex-encoded
   public key.  Strings are modelled by their character lists. -/

structure SeedNode where
  Host : List Char
  Port : Nat
  PublicKey : List Char
deriving DecidableEq, Repr

structure BootstrapResult where
  engineCalled : Bool
  throw : Option GoError
deriving DecidableEq, Repr

/-- tox.go Bootstrap (lines 809-836): decode the hex public key, reject a
decode failure or a wrong decoded length before ever calling tox_bootstrap,
then translate the engine's error code.  The engine's out-parameter code is
an input of the model; engineCalled records whether tox_bootstrap ran. -/
def Bootstrap (seedNode : SeedNode) (c_error : Nat) : BootstrapResult :=
  match hexDecodeString seedNode.PublicKey with
  | none => { engineCalled := false, throw := some GoError.hexErr }
  | some publicKey =>
    if publicKey.length ≠ ToxPublicKeySize then
      { engineCalled := false, throw := some (GoError.newErr "invalid public key") }
    else
      { engineCalled := true,
        throw := Option.map GoError.toxErr (classify_TOX_ERR_BOOTSTRAP c_error) }

/-- C8: a seed node whose public key is not valid hexadecimal, or decodes to
a length other than the engine's public-key size, makes Bootstrap return an
error without invoking the engine's bootstrap operation, and that validation
error is none of the bootstrap family's typed errors Null, BadHost, BadPort. -/
theorem Bootstrap_rejects_bad_public_key (seedNode : SeedNode) (c_error : Nat)
    (h : hexDecodeString seedNode.PublicKey = none ∨
      ∃ publicKey, hexDecodeString seedNode.PublicKey = some publicKey ∧
        publicKey.length ≠ ToxPublicKeySize) :
    (Bootstrap seedNode c_error).engineCalled = false ∧
    ∃ e, (Bootstrap seedNode c_error).throw = some e ∧
      e ≠ GoError.toxErr ToxError.ToxErrBootstrapNull ∧
      e ≠ GoError.toxErr ToxError.ToxErrBootstrapBadHost ∧
      e ≠ GoError.toxErr ToxError.ToxErrBootstrapBadPort := by
  rcases h with h | ⟨publicKey, h, hlen⟩
  · have hb : Bootstrap seedNode c_error =
        { engineCalled := false, throw := some GoError.hexErr } := by
      simp only [Bootstrap, h]
    rw [hb]
    exact ⟨rfl, GoError.hexErr, rfl, by decide, by decide, by decide⟩
  · have hb : Bootstrap seedNode c_error =
        { engineCalled := false, throw := some (GoError.newErr "invalid public key") } := by
      simp only [Bootstrap, h]
      rw [if_pos hlen]
    rw [hb]
    exact ⟨rfl, GoError.newErr "invalid public key", rfl, by decide, by decide, by decide⟩

/-- C8 witness: the public key "zz" is not valid hexadecimal, and the key
"00" decodes to one byte instead of 32; both are rejected before the engine
bootstrap operation runs. -/
theorem Bootstrap_rejects_bad_public_key_witness :
    (Bootstrap { Host := [], Port := 33445, PublicKey := ['z', 'z'] } 0).engineCalled =
      false ∧
    (Bootstrap { Host := [], Port := 33445, PublicKey := ['0', '0'] } 0).engineCalled =
      false := by
  refine ⟨(Bootstrap_rejects_bad_public_key
    { Host := [], Port := 33445, PublicKey := ['z', 'z'] } 0 (Or.inl (by decide))).1,
    (Bootstrap_rejects_bad_public_key
    { Host := [], Port := 33445, PublicKey := ['0', '0'] } 0
    (Or.inr ⟨[0], by decide, by decide⟩)).1⟩

/- tox.go FriendGetName (lines 526-559) and FriendGetStatusMessage (lines
   626-659).  Each makes two engine calls — a size query and a fetch — and
   each call writes its own error code; both codes are inputs of the model so
   that a failure of only the second call is covered.  The friend's stored
   sequences drive the sizes and contents, per the toxcore contract that the
   size query reports exactly the number of bytes the fetch writes. -/

structure FriendState where
  name : List Nat
  status_message : List Nat
deriving DecidableEq, Repr

def FriendGetName (friend : FriendState) (c_error1 c_error2 : Nat) :
    Option (List Nat) × Option GoError :=
  match classify_TOX_ERR_FRIEND_QUERY c_error1 with
  | some e => (none, some (GoError.toxErr e))
  | none =>
    match classify_TOX_ERR_FRIEND_QUERY c_error2 with
    | some e => (none, some (GoError.toxErr e))
    | none =>
      (some (if 0 < friend.name.length then friend.name
        else List.replicate friend.name.length 0), none)

def FriendGetStatusMessage (friend : FriendState) (c_error1 c_error2 : Nat) :
    Option (List Nat) × Option GoError :=
  match classify_TOX_ERR_FRIEND_QUERY c_error1 with
  | some e => (none, some (GoError.toxErr e))
  | none =>
    match classify_TOX_ERR_FRIEND_QUERY c_error2 with
    | some e => (none, some (GoError.toxErr e))
    | none =>
      (some (if 0 < friend.status_message.length then friend.status_message
        else List.replicate friend.status_message.length 0), none)

/-- C9: whenever FriendGetName or FriendGetStatusMessage returns an error —
from the size query or from the subsequent fetch — the returned buffer is
nil (none); a buffer is never returned together with an error. -/
theorem friend_query_error_nil_buffer (friend : FriendState) (c_error1 c_error2 : Nat)
    (err : GoError) :
    ((FriendGetName friend c_error1 c_error2).2 = some err →
      (FriendGetName friend c_error1 c_error2).1 = none) ∧
    ((FriendGetStatusMessage friend c_error1 c_error2).2 = some err →
      (FriendGetStatusMessage friend c_error1 c_error2).1 = none) := by
  constructor <;> intro h <;>
    cases hc1 : classify_TOX_ERR_FRIEND_QUERY c_error1 <;>
    cases hc2 : classify_TOX_ERR_FRIEND_QUERY c_error2 <;>
    simp only [FriendGetName, FriendGetStatusMessage, hc1, hc2] at h ⊢ <;>
    first | rfl | exact Option.noConfusion h

/-- C9 witness: a friend-not-found code from the size query of FriendGetName,
and one from the fetch step of FriendGetStatusMessage, both yield a nil
buffer. -/
theorem friend_query_error_nil_buffer_witness :
    (FriendGetName { name := [65], status_message := [66] } 2 0).1 = none ∧
    (FriendGetStatusMessage { name := [65], status_message := [66] } 0 2).1 = none :=
  ⟨(friend_query_error_nil_buffer { name := [65], status_message := [66] } 2 0
      (GoError.toxErr ToxError.ToxErrFriendQueryFriendNotFound)).1 (by decide),
    (friend_query_error_nil_buffer { name := [65], status_message := [66] } 0 2
      (GoError.toxErr ToxError.ToxErrFriendQueryFriendNotFound)).2 (by decide)⟩

/- tox.go FriendSendMessage (lines 711-748).  The engine call
   tox_friend_send_message is a black box: it is a function of the arguments
   the binding passes it, yielding the returned message id and the
   out-parameter error code. -/

def FriendSendMessage (engine : Nat → Nat → List Nat → Nat × Nat)
    (friendNumber : Nat) (messageType : ToxMessageType) (message : List Nat) :
    Nat × Option GoError :=
  let c_message_type :=
    if messageType = ToxMessageTypeAction then TOX_MESSAGE_TYPE_ACTION
    else TOX_MESSAGE_TYPE_NORMAL
  let r := engine friendNumber c_message_type message
  match classify_TOX_ERR_FRIEND_SEND_MESSAGE r.2 with
  | some e => (0, some (GoError.toxErr e))
  | none => (r.1, none)

/-- C10: for every engine behavior, friend number and message, calling
FriendSendMessage with any message type other than ToxMessageTypeAction —
including integers outside the declared enumeration — behaves exactly like
calling it with ToxMessageTypeNormal. -/
theorem FriendSendMessage_default_message_type (engine : Nat → Nat → List Nat → Nat × Nat)
    (friendNumber : Nat) (messageType : ToxMessageType) (message : List Nat)
    (h : messageType ≠ ToxMessageTypeAction) :
    FriendSendMessage engine friendNumber messageType message =
      FriendSendMessage engine friendNumber ToxMessageTypeNormal message := by
  simp only [FriendSendMessage, if_neg h,
    if_neg (by decide : ¬(ToxMessageTypeNormal = ToxMessageTypeAction))]

/-- C10 witness: the out-of-range message type 5 sends exactly like
ToxMessageTypeNormal against a concrete engine behavior. -/
theorem FriendSendMessage_default_message_type_witness :
    FriendSendMessage (fun n t m => (n + t + m.length, 0)) 4 5 [1, 2] =
      FriendSendMessage (fun n t m => (n + t + m.length, 0)) 4 ToxMessageTypeNormal [1, 2] :=
  FriendSendMessage_default_message_type (fun n t m => (n + t + m.length, 0)) 4 5 [1, 2]
    (by decide)
